import Mathlib

/-!
# Verification of the LocationCalcApp GPS tracker

Shallow embedding of the tracking session logic of `src/App.tsx` and of the
cloud client `LocationService` (`src/unnamed/part_000`), together with proofs
of the specified properties.

Coordinates, distances and speeds are modelled as rationals.  The external
geodesic library (`geographiclib`'s `Geodesic.WGS84.Inverse`) and the AWS
location client are third-party code, so they are modelled as parameters: an
arbitrary `Inverse` function returning an optional `s12` field, and an
arbitrary send behaviour for each AWS command.
-/

/-- A geographic position: `{latitude, longitude}` in degrees. -/
structure Position where
  latitude : ℚ
  longitude : ℚ
deriving DecidableEq, Repr

/-- The result record of the geodesic library's `Inverse` call; the distance
field `s12` may be absent (`null`/`undefined` in JS). -/
structure InverseResult where
  s12 : Option ℚ
deriving DecidableEq, Repr

/-- The type of the external geodesic `Inverse` function
(`Geodesic.WGS84.Inverse(lat1, lon1, lat2, lon2)`). -/
def GeodInverse : Type := ℚ → ℚ → ℚ → ℚ → InverseResult

/-- `calculateDistanceGeodesic` from `src/App.tsx` (lines 63–67):
`const result = geod.Inverse(lat1, lon1, lat2, lon2); return result.s12 ?? 0;`.
The external library is the parameter `geod`. -/
def calculateDistanceGeodesic (geod : GeodInverse)
    (lat1 lon1 lat2 lon2 : ℚ) : ℚ :=
  (geod lat1 lon1 lat2 lon2).s12.getD 0

/-- Geodesic distance between two `Position`s, as the app invokes it. -/
def geodDist (geod : GeodInverse) (p q : Position) : ℚ :=
  calculateDistanceGeodesic geod p.latitude p.longitude q.latitude q.longitude

/-- One location update as delivered by the device location subscription:
`location.coords` destructured to `{latitude, longitude, speed}`; `speed`
may be null. -/
structure LocationUpdate where
  latitude : ℚ
  longitude : ℚ
  speed : Option ℚ
deriving DecidableEq, Repr

/-- The position carried by an update (`const newPosition = {latitude, longitude}`). -/
def LocationUpdate.coords (u : LocationUpdate) : Position :=
  { latitude := u.latitude, longitude := u.longitude }

/-- Session state of the `App` component: the `useState` hooks plus the
`lastPositionRef` ref. -/
structure SessionState where
  isTracking : Bool
  totalDistance : ℚ
  currentSpeed : ℚ
  duration : ℕ
  currentPosition : Option Position
  routeCoordinates : List Position
  lastPosition : Option Position
deriving DecidableEq, Repr

/-- The initial values of the `useState` hooks and refs in `App`. -/
def initialSessionState : SessionState :=
  { isTracking := false
    totalDistance := 0
    currentSpeed := 0
    duration := 0
    currentPosition := none
    routeCoordinates := []
    lastPosition := none }

/-- The noise-rejection threshold: the literal `3` in `if (distance > 3)`
(`src/App.tsx` line 167), in meters. -/
def noiseThreshold : ℚ := 3

/-- The state mutations at the top of `startTracking` (`src/App.tsx`
lines 126–130): `setIsTracking(true); setTotalDistance(0); setDuration(0);
setRouteCoordinates([]); lastPositionRef.current = null;`. -/
def startTrackingInit (s : SessionState) : SessionState :=
  { s with
    isTracking := true
    totalDistance := 0
    duration := 0
    routeCoordinates := []
    lastPosition := none }

/-- `stopTracking` (`src/App.tsx` lines 185–195): only `setIsTracking(false)`
touches the session state (the rest clears the subscription and timer). -/
def stopTracking (s : SessionState) : SessionState :=
  { s with isTracking := false }

/-- `resetTracking` (`src/App.tsx` lines 198–205): `stopTracking()` then
zero out distance, speed, duration, route and the last-position ref. -/
def resetTracking (s : SessionState) : SessionState :=
  { stopTracking s with
    totalDistance := 0
    currentSpeed := 0
    duration := 0
    routeCoordinates := []
    lastPosition := none }

/-- The location callback of `startTracking` (`src/App.tsx` lines 146–176),
as a function from session state and one incoming update to the new state
together with the list of positions forwarded to the cloud client in this
step (`LocationService.trackPosition(latitude, longitude)` is invoked
fire-and-forget after the noise filter, on every non-first update).

Faithful to the source order: set `currentPosition` and `currentSpeed`
(`speed || 0`); on the first fix (`!lastPositionRef.current`) record the
reference position, replace the route by the singleton and return without
forwarding; otherwise compute the geodesic distance from the last position,
accumulate and append only when `distance > 3`, always advance
`lastPositionRef`, and forward the sample. -/
def processUpdate (geod : GeodInverse) (s : SessionState) (u : LocationUpdate) :
    SessionState × List Position :=
  let newPosition : Position := { latitude := u.latitude, longitude := u.longitude }
  let s1 := { s with
    currentPosition := some newPosition
    currentSpeed := u.speed.getD 0 }
  match s1.lastPosition with
  | none =>
      ({ s1 with
          lastPosition := some newPosition
          routeCoordinates := [newPosition] }, [])
  | some last =>
      let distance := calculateDistanceGeodesic geod
        last.latitude last.longitude u.latitude u.longitude
      let s2 :=
        if noiseThreshold < distance then
          { s1 with
            totalDistance := s1.totalDistance + distance
            routeCoordinates := s1.routeCoordinates ++ [newPosition] }
        else s1
      ({ s2 with lastPosition := some newPosition }, [newPosition])

/-- Folding the location callback over a list of updates, collecting all
positions forwarded to the cloud client, in order. -/
def runUpdates (geod : GeodInverse) :
    SessionState → List LocationUpdate → SessionState × List Position
  | s, [] => (s, [])
  | s, u :: us =>
      let r := processUpdate geod s u
      let rest := runUpdates geod r.1 us
      (rest.1, r.2 ++ rest.2)

/-- Sum of pairwise distances between consecutive points of a route. -/
def pairwiseSum (d : Position → Position → ℚ) : List Position → ℚ
  | a :: b :: rest => d a b + pairwiseSum d (b :: rest)
  | _ => 0

/-- The distance of each update from the position of the update immediately
before it (the evolving reference position), starting from `last`. -/
def stepDistances (d : Position → Position → ℚ) :
    Position → List LocationUpdate → List ℚ
  | _, [] => []
  | last, u :: us => d last u.coords :: stepDistances d u.coords us

/-- What the odometer actually accumulates over a session: the sum of those
reference-to-update distances that exceed the noise threshold. -/
def acceptedDistanceSum (geod : GeodInverse) : List LocationUpdate → ℚ
  | [] => 0
  | first :: rest =>
      ((stepDistances (geodDist geod) first.coords rest).filter
        (fun x => noiseThreshold < x)).sum

/-! ## The `LocationService` cloud client (`src/unnamed/part_000`)

The AWS SDK `LocationClient` is external; it is modelled by one send
behaviour per command type, each returning either a response or an error
message (a rejected promise).  Command and response record shapes follow the
fields the source constructs and reads. -/

/-- Horizontal accuracy record (`{ Horizontal: accuracy }`). -/
structure PositionalAccuracy where
  Horizontal : ℚ
deriving DecidableEq, Repr

/-- One entry of `Updates` in `BatchUpdateDevicePositionCommand`. -/
structure DevicePositionUpdate where
  DeviceId : String
  Position : List ℚ
  SampleTime : ℕ
  Accuracy : Option PositionalAccuracy
deriving DecidableEq, Repr

/-- `BatchUpdateDevicePositionCommand` input. -/
structure BatchUpdateDevicePositionCommand where
  TrackerName : String
  Updates : List DevicePositionUpdate
deriving DecidableEq, Repr

/-- Response of `BatchUpdateDevicePosition` (its payload is a list of batch
errors, unread by the source). -/
structure BatchUpdateDevicePositionResponse where
  Errors : Option (List String)
deriving DecidableEq, Repr

/-- `SearchPlaceIndexForTextCommand` input. -/
structure SearchPlaceIndexForTextCommand where
  IndexName : String
  Text : String
  MaxResults : ℕ
deriving DecidableEq, Repr

/-- `SearchPlaceIndexForPositionCommand` input. -/
structure SearchPlaceIndexForPositionCommand where
  IndexName : String
  Position : List ℚ
  MaxResults : ℕ
deriving DecidableEq, Repr

/-- Geometry of a place (`Geometry.Point` is `[lng, lat]`). -/
structure PlaceGeometry where
  Point : Option (List ℚ)
deriving DecidableEq, Repr

/-- A place record, with the fields the source reads. -/
structure Place where
  Geometry : Option PlaceGeometry
  Label : Option String
  Country : Option String
  Region : Option String
  Municipality : Option String
deriving DecidableEq, Repr

/-- One entry of `Results` in a place-index search response. -/
structure SearchResultItem where
  Place : Option Place
deriving DecidableEq, Repr

/-- Response of both place-index searches. -/
structure SearchPlaceIndexResponse where
  Results : Option (List SearchResultItem)
deriving DecidableEq, Repr

/-- Travel mode accepted by `calculateRoute` (`'Car' | 'Truck' | 'Walking'`). -/
inductive TravelMode where
  | Car
  | Truck
  | Walking
deriving DecidableEq, Repr

/-- `CalculateRouteCommand` input. -/
structure CalculateRouteCommand where
  CalculatorName : String
  DeparturePosition : List ℚ
  DestinationPosition : List ℚ
  TravelMode : TravelMode
  IncludeLegGeometry : Bool
  DistanceUnit : String
deriving DecidableEq, Repr

/-- Route summary of a `CalculateRoute` response. -/
structure RouteSummary where
  Distance : Option ℚ
  DurationSeconds : Option ℚ
deriving DecidableEq, Repr

/-- Leg geometry (`Geometry.LineString` is a list of `[lng, lat]` pairs). -/
structure LegGeometry where
  LineString : Option (List (List ℚ))
deriving DecidableEq, Repr

/-- One leg of a `CalculateRoute` response. -/
structure RouteLeg where
  Geometry : Option LegGeometry
deriving DecidableEq, Repr

/-- Response of `CalculateRoute`. -/
structure CalculateRouteResponse where
  Summary : Option RouteSummary
  Legs : Option (List RouteLeg)
deriving DecidableEq, Repr

/-- `GetDevicePositionHistoryCommand` input. -/
structure GetDevicePositionHistoryCommand where
  TrackerName : String
  DeviceId : String
  StartTimeInclusive : ℕ
  EndTimeExclusive : ℕ
deriving DecidableEq, Repr

/-- One device position of a position-history response. -/
structure DevicePosition where
  Position : Option (List ℚ)
  SampleTime : Option ℕ
  Accuracy : Option PositionalAccuracy
deriving DecidableEq, Repr

/-- Response of `GetDevicePositionHistory`. -/
structure GetDevicePositionHistoryResponse where
  DevicePositions : Option (List DevicePosition)
deriving DecidableEq, Repr

/-- The external AWS `LocationClient`, modelled by its send behaviour on each
command type; an `Except.error` is a rejected promise (network/API failure). -/
structure LocationClientModel where
  sendBatchUpdate :
    BatchUpdateDevicePositionCommand → Except String BatchUpdateDevicePositionResponse
  sendSearchText :
    SearchPlaceIndexForTextCommand → Except String SearchPlaceIndexResponse
  sendSearchPosition :
    SearchPlaceIndexForPositionCommand → Except String SearchPlaceIndexResponse
  sendCalculateRoute :
    CalculateRouteCommand → Except String CalculateRouteResponse
  sendGetHistory :
    GetDevicePositionHistoryCommand → Except String GetDevicePositionHistoryResponse

/-- The `LocationService` instance state: configuration fields read from
`aws-config.json`, the (possibly not yet initialized) client, and the
generated device identifier. -/
structure LocationService where
  region : String
  identityPoolId : String
  trackerName : String
  mapName : String
  placeIndexName : String
  routeCalculatorName : String
  locationClient : Option LocationClientModel
  deviceId : String

instance {ε α : Type} [DecidableEq ε] [DecidableEq α] : DecidableEq (Except ε α) :=
  fun x y =>
  match x, y with
  | Except.ok a, Except.ok b =>
      if h : a = b then Decidable.isTrue (congrArg Except.ok h)
      else Decidable.isFalse (fun hc => h (Except.ok.inj hc))
  | Except.error a, Except.error b =>
      if h : a = b then Decidable.isTrue (congrArg Except.error h)
      else Decidable.isFalse (fun hc => h (Except.error.inj hc))
  | Except.ok _, Except.error _ => Decidable.isFalse (fun hc => Except.noConfusion hc)
  | Except.error _, Except.ok _ => Decidable.isFalse (fun hc => Except.noConfusion hc)

/-- Result of one `trackPosition` call: the value returned to the caller
(`Except.error` is the rethrown failure, `Except.ok none` the bare `return`
when the client is not initialized) together with the console messages
emitted. -/
structure TrackOutcome where
  result : Except String (Option BatchUpdateDevicePositionResponse)
  logs : List String
deriving DecidableEq, Repr

/-- The `Updates` entry built by `trackPosition`: AWS expects `[lng, lat]`;
`Accuracy` is set only when `accuracy` is truthy (non-null and non-zero). -/
def trackPositionUpdateEntry (svc : LocationService)
    (latitude longitude : ℚ) (accuracy : Option ℚ) (timestamp : ℕ) :
    DevicePositionUpdate :=
  { DeviceId := svc.deviceId
    Position := [longitude, latitude]
    SampleTime := timestamp
    Accuracy :=
      match accuracy with
      | some a => if a = 0 then none else some { Horizontal := a }
      | none => none }

/-- `LocationService.trackPosition` (`src/unnamed/part_000` lines 80–106):
warn and return when the client is not initialized; otherwise send a
`BatchUpdateDevicePositionCommand` and return the response, or log the
failure and rethrow it. -/
def trackPosition (svc : LocationService)
    (latitude longitude : ℚ) (accuracy : Option ℚ) (timestamp : ℕ) :
    TrackOutcome :=
  match svc.locationClient with
  | none =>
      { result := Except.ok none
        logs := ["Location client not initialized"] }
  | some client =>
      let command : BatchUpdateDevicePositionCommand :=
        { TrackerName := svc.trackerName
          Updates := [trackPositionUpdateEntry svc latitude longitude accuracy timestamp] }
      match client.sendBatchUpdate command with
      | Except.ok response =>
          { result := Except.ok (some response)
            logs := ["Position tracked successfully:"] }
      | Except.error e =>
          { result := Except.error e
            logs := ["Failed to track position:"] }

/-- The record `geocode` returns on a non-empty result list. -/
structure GeocodeResult where
  latitude : Option ℚ
  longitude : Option ℚ
  address : Option String
deriving DecidableEq, Repr

/-- `LocationService.geocode` (`src/unnamed/part_000` lines 125–151): throws
when the client is not initialized; otherwise searches the place index for
the text and projects the first result. -/
def geocode (svc : LocationService) (address : String) :
    Except String (Option GeocodeResult) :=
  match svc.locationClient with
  | none => Except.error "Location client not initialized"
  | some client =>
      let command : SearchPlaceIndexForTextCommand :=
        { IndexName := svc.placeIndexName
          Text := address
          MaxResults := 1 }
      match client.sendSearchText command with
      | Except.error e => Except.error e
      | Except.ok response =>
          match response.Results with
          | some (item :: _) =>
              let place := item.Place
              Except.ok (some
                { latitude :=
                    ((place.bind (fun p => p.Geometry)).bind
                      (fun g => g.Point)).bind (fun pts => pts[1]?)
                  longitude :=
                    ((place.bind (fun p => p.Geometry)).bind
                      (fun g => g.Point)).bind (fun pts => pts[0]?)
                  address := place.bind (fun p => p.Label) })
          | some [] => Except.ok none
          | none => Except.ok none

/-- The record `reverseGeocode` returns on a non-empty result list. -/
structure ReverseGeocodeResult where
  address : Option String
  country : Option String
  region : Option String
  municipality : Option String
deriving DecidableEq, Repr

/-- `LocationService.reverseGeocode` (`src/unnamed/part_000` lines 154–181):
throws when the client is not initialized; otherwise searches the place
index for `[longitude, latitude]` and projects the first result. -/
def reverseGeocode (svc : LocationService) (latitude longitude : ℚ) :
    Except String (Option ReverseGeocodeResult) :=
  match svc.locationClient with
  | none => Except.error "Location client not initialized"
  | some client =>
      let command : SearchPlaceIndexForPositionCommand :=
        { IndexName := svc.placeIndexName
          Position := [longitude, latitude]
          MaxResults := 1 }
      match client.sendSearchPosition command with
      | Except.error e => Except.error e
      | Except.ok response =>
          match response.Results with
          | some (item :: _) =>
              let place := item.Place
              Except.ok (some
                { address := place.bind (fun p => p.Label)
                  country := place.bind (fun p => p.Country)
                  region := place.bind (fun p => p.Region)
                  municipality := place.bind (fun p => p.Municipality) })
          | some [] => Except.ok none
          | none => Except.ok none

/-- The record `calculateRoute` returns. -/
structure RouteResult where
  distance : Option ℚ
  duration : Option ℚ
  geometry : Option (List (List ℚ))
deriving DecidableEq, Repr

/-- `LocationService.calculateRoute` (`src/unnamed/part_000` lines 184–215):
throws when the client is not initialized; otherwise sends a
`CalculateRouteCommand` and projects the summary and first-leg geometry. -/
def calculateRoute (svc : LocationService)
    (startLat startLng endLat endLng : ℚ) (travelMode : TravelMode) :
    Except String RouteResult :=
  match svc.locationClient with
  | none => Except.error "Location client not initialized"
  | some client =>
      let command : CalculateRouteCommand :=
        { CalculatorName := svc.routeCalculatorName
          DeparturePosition := [startLng, startLat]
          DestinationPosition := [endLng, endLat]
          TravelMode := travelMode
          IncludeLegGeometry := true
          DistanceUnit := "Kilometers" }
      match client.sendCalculateRoute command with
      | Except.error e => Except.error e
      | Except.ok response =>
          Except.ok
            { distance := response.Summary.bind (fun s => s.Distance)
              duration := response.Summary.bind (fun s => s.DurationSeconds)
              geometry :=
                (response.Legs.bind (fun legs => legs[0]?)).bind
                  (fun leg => leg.Geometry.bind (fun g => g.LineString)) }

/-- One entry of the list `getDevicePositionHistory` returns. -/
structure HistoryItem where
  latitude : Option ℚ
  longitude : Option ℚ
  timestamp : Option ℕ
  accuracy : Option ℚ
deriving DecidableEq, Repr

/-- `LocationService.getDevicePositionHistory` (`src/unnamed/part_000`
lines 218–242): throws when the client is not initialized; otherwise
fetches the device's position history and maps each entry. -/
def getDevicePositionHistory (svc : LocationService)
    (startTime endTime : ℕ) :
    Except String (Option (List HistoryItem)) :=
  match svc.locationClient with
  | none => Except.error "Location client not initialized"
  | some client =>
      let command : GetDevicePositionHistoryCommand :=
        { TrackerName := svc.trackerName
          DeviceId := svc.deviceId
          StartTimeInclusive := startTime
          EndTimeExclusive := endTime }
      match client.sendGetHistory command with
      | Except.error e => Except.error e
      | Except.ok response =>
          Except.ok (response.DevicePositions.map (fun positions =>
            positions.map (fun pos =>
              { latitude := pos.Position.bind (fun xs => xs[1]?)
                longitude := pos.Position.bind (fun xs => xs[0]?)
                timestamp := pos.SampleTime
                accuracy := pos.Accuracy.map (fun a => a.Horizontal) })))

/-- The session loop with the remote client attached: each non-first update
additionally invokes `trackPosition svc latitude longitude` fire-and-forget
(`accuracy` left at its `null` default, the sample time not modelled), and
the outcomes are collected.  The state evolution never inspects an outcome,
exactly as in the source, where the promise is not awaited. -/
def runSessionWithRemote (geod : GeodInverse) (svc : LocationService) :
    SessionState → List LocationUpdate → SessionState × List TrackOutcome
  | s, [] => (s, [])
  | s, u :: us =>
      let r := processUpdate geod s u
      let outcomes := r.2.map (fun p => trackPosition svc p.latitude p.longitude none 0)
      let rest := runSessionWithRemote geod svc r.1 us
      (rest.1, outcomes ++ rest.2)

/-! ## Concrete instances used by counterexamples and witnesses -/

/-- Absolute difference of two rationals, written with an explicit branch. -/
def absDiff (a b : ℚ) : ℚ := if a ≤ b then b - a else a - b

/-- A concrete stand-in for the external geodesic library: the taxicab
distance between the two coordinate pairs (a genuine metric), with `s12`
always present. -/
def flatGeod : GeodInverse := fun lat1 lon1 lat2 lon2 =>
  { s12 := some (absDiff lat1 lat2 + absDiff lon1 lon2) }

/-- A geodesic library whose `Inverse` has no `s12` field. -/
def nullGeod : GeodInverse := fun _ _ _ _ => { s12 := none }

/-- Sample fix A at the origin. -/
def sampleA : LocationUpdate := { latitude := 0, longitude := 0, speed := none }

/-- Sample fix B, at `flatGeod` distance 2 from A (below the threshold). -/
def sampleB : LocationUpdate := { latitude := 2, longitude := 0, speed := none }

/-- Sample fix C, at `flatGeod` distance 7 from B but 9 from A. -/
def sampleC : LocationUpdate := { latitude := 8, longitude := 1, speed := none }

/-- The origin position. -/
def origin : Position := { latitude := 0, longitude := 0 }

/-- A mid-session state: tracking with the origin as reference position. -/
def trackedState : SessionState :=
  { startTrackingInit initialSessionState with
      lastPosition := some origin
      routeCoordinates := [origin] }

/-- A client whose every send fails (network down). -/
def failClient : LocationClientModel :=
  { sendBatchUpdate := fun _ => Except.error "network failure"
    sendSearchText := fun _ => Except.error "network failure"
    sendSearchPosition := fun _ => Except.error "network failure"
    sendCalculateRoute := fun _ => Except.error "network failure"
    sendGetHistory := fun _ => Except.error "network failure" }

/-- A service whose client is initialized but whose sends all fail. -/
def failService : LocationService :=
  { region := "ap-northeast-1"
    identityPoolId := "pool"
    trackerName := "tracker"
    mapName := "map"
    placeIndexName := "index"
    routeCalculatorName := "routes"
    locationClient := some failClient
    deviceId := "device_1" }

/-- A service whose client initialization has not completed. -/
def noClientService : LocationService :=
  { region := "ap-northeast-1"
    identityPoolId := "pool"
    trackerName := "tracker"
    mapName := "map"
    placeIndexName := "index"
    routeCalculatorName := "routes"
    locationClient := none
    deviceId := "device_0" }

/-! ## Helper lemmas -/

theorem processUpdate_lastPosition_none {geod : GeodInverse} {s : SessionState}
    {u : LocationUpdate} (h : s.lastPosition = none) :
    processUpdate geod s u =
      ({ s with currentPosition := some u.coords
                currentSpeed := u.speed.getD 0
                lastPosition := some u.coords
                routeCoordinates := [u.coords] }, []) := by
  simp [processUpdate, h, LocationUpdate.coords]

theorem processUpdate_reject {geod : GeodInverse} {s : SessionState}
    {u : LocationUpdate} {last : Position} (h : s.lastPosition = some last)
    (hd : ¬ noiseThreshold <
      calculateDistanceGeodesic geod last.latitude last.longitude u.latitude u.longitude) :
    processUpdate geod s u =
      ({ s with currentPosition := some u.coords
                currentSpeed := u.speed.getD 0
                lastPosition := some u.coords }, [u.coords]) := by
  simp [processUpdate, h, hd, LocationUpdate.coords]

theorem processUpdate_accept {geod : GeodInverse} {s : SessionState}
    {u : LocationUpdate} {last : Position} (h : s.lastPosition = some last)
    (hd : noiseThreshold <
      calculateDistanceGeodesic geod last.latitude last.longitude u.latitude u.longitude) :
    processUpdate geod s u =
      ({ s with currentPosition := some u.coords
                currentSpeed := u.speed.getD 0
                totalDistance := s.totalDistance +
                  calculateDistanceGeodesic geod last.latitude last.longitude u.latitude u.longitude
                routeCoordinates := s.routeCoordinates ++ [u.coords]
                lastPosition := some u.coords }, [u.coords]) := by
  simp [processUpdate, h, hd, LocationUpdate.coords]

theorem processUpdate_fst_lastPosition (geod : GeodInverse) (s : SessionState)
    (u : LocationUpdate) : (processUpdate geod s u).1.lastPosition = some u.coords := by
  cases h : s.lastPosition with
  | none => rw [processUpdate_lastPosition_none h]
  | some last =>
      by_cases hd : noiseThreshold <
        calculateDistanceGeodesic geod last.latitude last.longitude u.latitude u.longitude
      · rw [processUpdate_accept h hd]
      · rw [processUpdate_reject h hd]

theorem runUpdates_snd_of_some {geod : GeodInverse} :
    ∀ (us : List LocationUpdate) (s : SessionState) (p : Position),
      s.lastPosition = some p →
      (runUpdates geod s us).2 = us.map LocationUpdate.coords
  | [], s, p, h => by simp [runUpdates]
  | u :: us, s, p, h => by
      by_cases hd : noiseThreshold <
        calculateDistanceGeodesic geod p.latitude p.longitude u.latitude u.longitude
      · simp only [runUpdates, processUpdate_accept h hd, List.map]
        rw [runUpdates_snd_of_some us _ u.coords rfl]
        simp
      · simp only [runUpdates, processUpdate_reject h hd, List.map]
        rw [runUpdates_snd_of_some us _ u.coords rfl]
        simp

theorem runUpdates_totalDistance_of_some {geod : GeodInverse} :
    ∀ (us : List LocationUpdate) (s : SessionState) (p : Position),
      s.lastPosition = some p →
      (runUpdates geod s us).1.totalDistance =
        s.totalDistance +
          ((stepDistances (geodDist geod) p us).filter
            (fun x => noiseThreshold < x)).sum
  | [], s, p, h => by simp [runUpdates, stepDistances]
  | u :: us, s, p, h => by
      by_cases hd : noiseThreshold <
        calculateDistanceGeodesic geod p.latitude p.longitude u.latitude u.longitude
      · simp only [runUpdates, processUpdate_accept h hd]
        rw [runUpdates_totalDistance_of_some us _ u.coords rfl]
        simp [stepDistances, geodDist, LocationUpdate.coords, hd, add_assoc]
      · simp only [runUpdates, processUpdate_reject h hd]
        rw [runUpdates_totalDistance_of_some us _ u.coords rfl]
        simp [stepDistances, geodDist, LocationUpdate.coords, hd]

theorem processUpdate_route_cases {geod : GeodInverse} {s : SessionState}
    {u : LocationUpdate} (h : s.lastPosition = none → s.routeCoordinates = []) :
    (processUpdate geod s u).1.routeCoordinates = s.routeCoordinates ∨
    (processUpdate geod s u).1.routeCoordinates = s.routeCoordinates ++ [u.coords] := by
  cases hl : s.lastPosition with
  | none =>
      right
      rw [processUpdate_lastPosition_none hl, h hl]
      simp
  | some last =>
      by_cases hd : noiseThreshold <
        calculateDistanceGeodesic geod last.latitude last.longitude u.latitude u.longitude
      · right
        rw [processUpdate_accept hl hd]
      · left
        rw [processUpdate_reject hl hd]

theorem runUpdates_route_inv {geod : GeodInverse} :
    ∀ (us : List LocationUpdate) (s : SessionState),
      (s.lastPosition = none → s.routeCoordinates = []) →
      ((runUpdates geod s us).1.lastPosition = none →
        (runUpdates geod s us).1.routeCoordinates = [])
  | [], s, h => h
  | u :: us, s, h => by
      simp only [runUpdates]
      exact runUpdates_route_inv us _ (fun hn => by
        rw [processUpdate_fst_lastPosition] at hn
        exact absurd hn (by simp))

theorem runSessionWithRemote_fst (geod : GeodInverse) (svc : LocationService) :
    ∀ (us : List LocationUpdate) (s : SessionState),
      (runSessionWithRemote geod svc s us).1 = (runUpdates geod s us).1
  | [], s => rfl
  | u :: us, s => by
      simp only [runSessionWithRemote, runUpdates]
      exact runSessionWithRemote_fst geod svc us _

/-! ## Claims -/

/-- C1, as stated, is false: `totalDistance` accumulates the distance from
the previous update's position (the reference `lastPositionRef`), which
advances even on rejected updates, so it can differ from the sum of pairwise
distances between consecutive accepted route points.  Concretely: fixes at
taxicab positions A(0,0), B(2,0), C(8,1); B is rejected (distance 2 ≤ 3),
C is accepted with distance 7 from B, yet the route is [A, C] with pairwise
distance 9. -/
theorem C1_counterexample :
    ¬ ((runUpdates flatGeod (startTrackingInit initialSessionState)
          [sampleA, sampleB, sampleC]).1.totalDistance
        = pairwiseSum (geodDist flatGeod)
            (runUpdates flatGeod (startTrackingInit initialSessionState)
              [sampleA, sampleB, sampleC]).1.routeCoordinates) := by
  norm_num [runUpdates, processUpdate, calculateDistanceGeodesic, geodDist, pairwiseSum,
    startTrackingInit, initialSessionState, flatGeod, absDiff, sampleA, sampleB, sampleC,
    noiseThreshold, LocationUpdate.coords]

/-- C1 amended: during a session, `totalDistance` equals the sum of the
geodesic distances from each update to the immediately preceding update's
position (the reference position), restricted to those distances exceeding
the noise threshold. -/
theorem C1_totalDistance_acceptedDistanceSum (geod : GeodInverse)
    (s : SessionState) (us : List LocationUpdate) :
    (runUpdates geod (startTrackingInit s) us).1.totalDistance =
      acceptedDistanceSum geod us := by
  cases us with
  | nil => simp [runUpdates, acceptedDistanceSum, startTrackingInit]
  | cons first rest =>
      simp only [runUpdates]
      rw [processUpdate_lastPosition_none (by simp [startTrackingInit])]
      rw [runUpdates_totalDistance_of_some rest _ first.coords rfl]
      simp [acceptedDistanceSum, startTrackingInit]

/-- C2, as stated, is false: the cloud client does not mirror the accepted
updates.  With fixes A(0,0) and B(2,0), B is rejected by the noise filter
(the accepted route stays [A]), yet B — and not A — is forwarded to the
cloud service. -/
theorem C2_counterexample :
    ¬ ((runUpdates flatGeod (startTrackingInit initialSessionState)
          [sampleA, sampleB]).2
        = (runUpdates flatGeod (startTrackingInit initialSessionState)
            [sampleA, sampleB]).1.routeCoordinates) := by
  norm_num [runUpdates, processUpdate, calculateDistanceGeodesic,
    startTrackingInit, initialSessionState, flatGeod, absDiff, sampleA, sampleB,
    noiseThreshold, LocationUpdate.coords]

/-- C2 amended: every update after the first is forwarded to the cloud
client exactly once, whether or not it is accepted; the first update is not
forwarded. -/
theorem C2_sent_eq_nonfirst_updates (geod : GeodInverse)
    (s : SessionState) (us : List LocationUpdate) :
    (runUpdates geod (startTrackingInit s) us).2 =
      (us.drop 1).map LocationUpdate.coords := by
  cases us with
  | nil => simp [runUpdates]
  | cons first rest =>
      simp only [runUpdates]
      rw [processUpdate_lastPosition_none (by simp [startTrackingInit])]
      rw [runUpdates_snd_of_some rest _ first.coords rfl]
      simp

/-- C3: an update whose distance from the reference position is below the
noise threshold changes neither `totalDistance` nor `routeCoordinates`. -/
theorem C3_below_threshold_frame (geod : GeodInverse) (s : SessionState)
    (u : LocationUpdate) (last : Position)
    (h : s.lastPosition = some last)
    (hd : calculateDistanceGeodesic geod last.latitude last.longitude
            u.latitude u.longitude < noiseThreshold) :
    (processUpdate geod s u).1.totalDistance = s.totalDistance ∧
    (processUpdate geod s u).1.routeCoordinates = s.routeCoordinates := by
  rw [processUpdate_reject h (not_lt_of_gt hd)]
  exact ⟨rfl, rfl⟩

theorem C3_witness :
    trackedState.lastPosition = some origin ∧
    calculateDistanceGeodesic flatGeod origin.latitude origin.longitude
      sampleB.latitude sampleB.longitude < noiseThreshold ∧
    (processUpdate flatGeod trackedState sampleB).1.totalDistance
      = trackedState.totalDistance ∧
    (processUpdate flatGeod trackedState sampleB).1.routeCoordinates
      = trackedState.routeCoordinates := by
  refine ⟨rfl, ?_, ?_⟩
  · norm_num [calculateDistanceGeodesic, flatGeod, absDiff, origin, sampleB, noiseThreshold]
  · exact C3_below_threshold_frame flatGeod trackedState sampleB origin rfl
      (by norm_num [calculateDistanceGeodesic, flatGeod, absDiff, origin, sampleB,
        noiseThreshold])

/-- C4: processing any update never decreases `totalDistance`. -/
theorem C4_totalDistance_mono (geod : GeodInverse) (s : SessionState)
    (u : LocationUpdate) :
    s.totalDistance ≤ (processUpdate geod s u).1.totalDistance := by
  cases hl : s.lastPosition with
  | none => rw [processUpdate_lastPosition_none hl]
  | some last =>
      by_cases hd : noiseThreshold <
        calculateDistanceGeodesic geod last.latitude last.longitude u.latitude u.longitude
      · rw [processUpdate_accept hl hd]
        have h0 : (0 : ℚ) < noiseThreshold := by norm_num [noiseThreshold]
        exact le_add_of_nonneg_right (le_of_lt (lt_trans h0 hd))
      · rw [processUpdate_reject hl hd]

/-- C5: `resetTracking` returns the session to the zero state from any prior
state. -/
theorem C5_reset_zero_state (s : SessionState) :
    (resetTracking s).isTracking = false ∧
    (resetTracking s).totalDistance = 0 ∧
    (resetTracking s).currentSpeed = 0 ∧
    (resetTracking s).duration = 0 ∧
    (resetTracking s).routeCoordinates = [] ∧
    (resetTracking s).lastPosition = none := by
  simp [resetTracking, stopTracking]

/-- C7: in any state reachable during a session, processing an update either
leaves the route unchanged or appends exactly the update's point at the end. -/
theorem C7_route_append_only (geod : GeodInverse) (s : SessionState)
    (us : List LocationUpdate) (u : LocationUpdate) :
    (processUpdate geod (runUpdates geod (startTrackingInit s) us).1 u).1.routeCoordinates
        = (runUpdates geod (startTrackingInit s) us).1.routeCoordinates ∨
    (processUpdate geod (runUpdates geod (startTrackingInit s) us).1 u).1.routeCoordinates
        = (runUpdates geod (startTrackingInit s) us).1.routeCoordinates ++ [u.coords] :=
  processUpdate_route_cases
    (runUpdates_route_inv us (startTrackingInit s) (fun _ => by simp [startTrackingInit]))

/-- C8: the first update of a session becomes the sole route point and the
reference position, leaves `totalDistance` at 0, and is not forwarded to the
cloud client. -/
theorem C8_first_update (geod : GeodInverse) (s : SessionState)
    (u : LocationUpdate) (h : s.lastPosition = none)
    (h0 : s.totalDistance = 0) :
    (processUpdate geod s u).1.routeCoordinates = [u.coords] ∧
    (processUpdate geod s u).1.lastPosition = some u.coords ∧
    (processUpdate geod s u).1.totalDistance = 0 ∧
    (processUpdate geod s u).2 = [] := by
  rw [processUpdate_lastPosition_none h]
  exact ⟨rfl, rfl, h0, rfl⟩

theorem C8_witness :
    (startTrackingInit initialSessionState).lastPosition = none ∧
    (startTrackingInit initialSessionState).totalDistance = 0 ∧
    (processUpdate flatGeod (startTrackingInit initialSessionState) sampleA).1.routeCoordinates
      = [sampleA.coords] ∧
    (processUpdate flatGeod (startTrackingInit initialSessionState) sampleA).1.lastPosition
      = some sampleA.coords ∧
    (processUpdate flatGeod (startTrackingInit initialSessionState) sampleA).1.totalDistance
      = 0 ∧
    (processUpdate flatGeod (startTrackingInit initialSessionState) sampleA).2 = [] := by
  refine ⟨rfl, rfl, ?_⟩
  have h := C8_first_update flatGeod (startTrackingInit initialSessionState) sampleA rfl rfl
  exact ⟨h.1, h.2.1, h.2.2.1, h.2.2.2⟩

/-- C6, as stated, is false: on a failed remote send, `trackPosition` logs
the failure and then rethrows it (`throw error`), so the failure IS
propagated to its caller as a rejected promise.  Concretely, with a client
whose send fails, the call returns the error. -/
theorem C6_counterexample :
    (trackPosition failService 1 2 none 0).result = Except.error "network failure" ∧
    (trackPosition failService 1 2 none 0).logs = ["Failed to track position:"] :=
  ⟨rfl, rfl⟩

/-- C6 amended: a failed remote send is logged and rethrown by
`trackPosition`; since the app invokes it fire-and-forget, the local session
state is the same whatever the remote client does. -/
theorem C6_remote_failure (svc : LocationService) (client : LocationClientModel)
    (lat lon : ℚ) (acc : Option ℚ) (ts : ℕ) (e : String)
    (hc : svc.locationClient = some client)
    (hf : client.sendBatchUpdate
        { TrackerName := svc.trackerName
          Updates := [trackPositionUpdateEntry svc lat lon acc ts] } = Except.error e) :
    (trackPosition svc lat lon acc ts).result = Except.error e ∧
    (trackPosition svc lat lon acc ts).logs = ["Failed to track position:"] ∧
    ∀ (geod : GeodInverse) (s : SessionState) (us : List LocationUpdate),
      (runSessionWithRemote geod svc s us).1 = (runUpdates geod s us).1 := by
  refine ⟨?_, ?_, fun geod s us => runSessionWithRemote_fst geod svc us s⟩ <;>
    simp [trackPosition, hc, hf]

theorem C6_witness :
    failService.locationClient = some failClient ∧
    failClient.sendBatchUpdate
        { TrackerName := failService.trackerName
          Updates := [trackPositionUpdateEntry failService 1 2 none 0] }
      = Except.error "network failure" ∧
    (trackPosition failService 1 2 none 0).result = Except.error "network failure" ∧
    (trackPosition failService 1 2 none 0).logs = ["Failed to track position:"] ∧
    (runSessionWithRemote flatGeod failService initialSessionState [sampleA, sampleB]).1
      = (runUpdates flatGeod initialSessionState [sampleA, sampleB]).1 := by
  have h := C6_remote_failure failService failClient 1 2 none 0 "network failure" rfl rfl
  exact ⟨rfl, rfl, h.1, h.2.1, h.2.2 flatGeod initialSessionState [sampleA, sampleB]⟩

/-- C9: with an uninitialized client, `trackPosition` returns without error,
while the four query methods each raise `Location client not initialized`. -/
theorem C9_uninitialized (svc : LocationService)
    (h : svc.locationClient = none)
    (lat lon : ℚ) (acc : Option ℚ) (ts : ℕ) (addr : String)
    (slat slng elat elng : ℚ) (mode : TravelMode) (t1 t2 : ℕ) :
    (trackPosition svc lat lon acc ts).result = Except.ok none ∧
    geocode svc addr = Except.error "Location client not initialized" ∧
    reverseGeocode svc lat lon = Except.error "Location client not initialized" ∧
    calculateRoute svc slat slng elat elng mode
      = Except.error "Location client not initialized" ∧
    getDevicePositionHistory svc t1 t2
      = Except.error "Location client not initialized" := by
  refine ⟨?_, ?_, ?_, ?_, ?_⟩ <;>
    simp [trackPosition, geocode, reverseGeocode, calculateRoute,
      getDevicePositionHistory, h]

theorem C9_witness :
    noClientService.locationClient = none ∧
    (trackPosition noClientService 1 2 none 0).result = Except.ok none ∧
    geocode noClientService "Tokyo Station"
      = Except.error "Location client not initialized" ∧
    reverseGeocode noClientService 1 2
      = Except.error "Location client not initialized" ∧
    calculateRoute noClientService 0 0 1 1 TravelMode.Car
      = Except.error "Location client not initialized" ∧
    getDevicePositionHistory noClientService 0 1
      = Except.error "Location client not initialized" := by
  have h := C9_uninitialized noClientService rfl 1 2 none 0 "Tokyo Station"
    0 0 1 1 TravelMode.Car 0 1
  exact ⟨rfl, h.1, h.2.1, h.2.2.1, h.2.2.2.1, h.2.2.2.2⟩

/-- C10: `calculateDistanceGeodesic` is total: it returns the library's
`s12` when present and 0 when `s12` is null/undefined. -/
theorem C10_distance_total (geod : GeodInverse) (lat1 lon1 lat2 lon2 : ℚ) :
    ((geod lat1 lon1 lat2 lon2).s12 = none →
      calculateDistanceGeodesic geod lat1 lon1 lat2 lon2 = 0) ∧
    ∀ x : ℚ, (geod lat1 lon1 lat2 lon2).s12 = some x →
      calculateDistanceGeodesic geod lat1 lon1 lat2 lon2 = x := by
  constructor
  · intro h
    simp [calculateDistanceGeodesic, h]
  · intro x h
    simp [calculateDistanceGeodesic, h]

theorem C10_witness :
    (nullGeod 0 0 0 0).s12 = none ∧
    calculateDistanceGeodesic nullGeod 0 0 0 0 = 0 :=
  ⟨rfl, (C10_distance_total nullGeod 0 0 0 0).1 rfl⟩
